import Mathlib

/-!
Verification development for the NasaDemo backend core: a shallow embedding of
`backend/nasa/client.py` (`EONETClient._get`, the retry/backoff loop) and
`backend/nasa/normalizer.py` (`_try_parse_dt`, `normalize_events`), together
with theorems settling the specification claims about them.

Python values that flow through the normalizer are modelled by the inductive
type `PyVal` (JSON-ish data: `None`, booleans, integers, floats-as-rationals,
strings, lists, and string-keyed dicts).  Fallible Python code (code that can
raise) is modelled with `Option`: `Option.none` is an escaping exception.
-/

/-- Model of the Python values handled by the normalizer: `None`, `bool`,
`int`, `float` (modelled as a rational; the normalizer never computes with
floats, it only passes them through), `str`, `list`, and string-keyed `dict`.
Dict keys are modelled as strings, which is the only key type occurring in
EONET payloads. -/
inductive PyVal where
  | none
  | bool (b : Bool)
  | int (n : Int)
  | float (q : ℚ)
  | str (s : String)
  | list (xs : List PyVal)
  | dict (kvs : List (String × PyVal))

/-- Python truthiness (`bool(v)`): `None` and `False` are falsy, numbers are
falsy iff zero, strings/lists/dicts are falsy iff empty. -/
def PyVal.truthy : PyVal → Bool
  | .none => false
  | .bool b => b
  | .int n => decide (n ≠ 0)
  | .float q => decide (q ≠ 0)
  | .str s => decide (s.length ≠ 0)
  | .list xs => decide (xs.length ≠ 0)
  | .dict kvs => decide (kvs.length ≠ 0)

/-- Whether a value is a Python mapping (`dict`). -/
def PyVal.isDict : PyVal → Bool
  | .dict _ => true
  | _ => false

/-- Whether a value is a Python `str`. -/
def PyVal.isStr : PyVal → Bool
  | .str _ => true
  | _ => false

/-- Rendering of a float for `repr`/`str`.  Python prints the shortest decimal
that round-trips; we model floats as rationals and render integral values the
way Python does (`"3.0"`) and non-integral ones as `num/den`.  No claim (and
no normalizer branch) depends on this rendering. -/
def floatRepr (q : ℚ) : String :=
  if q.den = 1 then toString q.num ++ ".0" else toString q.num ++ "/" ++ toString q.den

mutual

/-- Python `repr` of a value (the part of it the normalizer can observe via
`str()` applied to lists/dicts; string escaping inside containers is modelled
as plain single-quoting). -/
def pyRepr : PyVal → String
  | .none => "None"
  | .bool true => "True"
  | .bool false => "False"
  | .int n => toString n
  | .float q => floatRepr q
  | .str s => "\x27" ++ s ++ "\x27"
  | .list xs => "[" ++ pyReprSeq xs ++ "]"
  | .dict kvs => "\x7b" ++ pyReprPairs kvs ++ "\x7d"

/-- Comma-separated `repr` of the elements of a list. -/
def pyReprSeq : List PyVal → String
  | [] => ""
  | [v] => pyRepr v
  | v :: vs => pyRepr v ++ ", " ++ pyReprSeq vs

/-- Comma-separated `repr` of the key/value pairs of a dict. -/
def pyReprPairs : List (String × PyVal) → String
  | [] => ""
  | [kv] => "\x27" ++ kv.1 ++ "\x27: " ++ pyRepr kv.2
  | kv :: kvs => "\x27" ++ kv.1 ++ "\x27: " ++ pyRepr kv.2 ++ ", " ++ pyReprPairs kvs

end

/-- Python `str(v)`: the string itself for a `str`, `repr` otherwise (for the
types in `PyVal`, `__str__` and `__repr__` agree except on `str`). -/
def pyStr (v : PyVal) : String :=
  match v with
  | .str s => s
  | _ => pyRepr v

/-!
Model of the slice of CPython's `datetime` used by `_try_parse_dt`:
`datetime.fromisoformat` (the strict isoformat grammar of CPython's pure
Python implementation) and `datetime.isoformat`.  `int()` applied to the
fixed-width numeric fields is modelled as parsing a plain digit string (the
sign/whitespace/underscore forms Python's `int()` would additionally accept do
not occur in timestamps and are not modelled).
-/

/-- Value of a non-empty all-digit character list, `Option.none` otherwise
(models `int()` on the fixed-width slices cut by the isoformat parser). -/
def digitsToNat (cs : List Char) : Option Nat :=
  if cs.isEmpty then Option.none
  else if cs.all Char.isDigit then
    some (cs.foldl (fun a c => 10 * a + (c.toNat - 48)) 0)
  else Option.none

/-- Parse the 10-character date prefix `YYYY-MM-DD` (models
`_parse_isoformat_date`; shorter inputs fail just as Python's slicing plus
`int()`/indexing failures do). -/
def parseIsoDate (cs : List Char) : Option (Nat × Nat × Nat) :=
  match cs with
  | [y1, y2, y3, y4, s1, m1, m2, s2, d1, d2] =>
    if s1 = '-' ∧ s2 = '-' then
      match digitsToNat [y1, y2, y3, y4], digitsToNat [m1, m2], digitsToNat [d1, d2] with
      | some y, some m, some d => some (y, m, d)
      | _, _, _ => Option.none
    else Option.none
  | _ => Option.none

/-- Parse the fractional-seconds tail left over after `HH:MM:SS` (models the
microsecond handling at the end of `_parse_hh_mm_ss_ff`): empty, or a dot
followed by exactly 3 or 6 digits. -/
def parseFrac (cs : List Char) : Option Nat :=
  match cs with
  | [] => some 0
  | '.' :: rest =>
    match digitsToNat rest with
    | some n =>
      if rest.length = 3 then some (n * 1000)
      else if rest.length = 6 then some n
      else Option.none
    | Option.none => Option.none
  | _ => Option.none

/-- Parse `HH[:MM[:SS[.fff[fff]]]]` (models `_parse_hh_mm_ss_ff`); returns
hour, minute, second, microsecond. -/
def parseHMS (cs : List Char) : Option (Nat × Nat × Nat × Nat) :=
  match cs with
  | a :: b :: rest =>
    match digitsToNat [a, b] with
    | Option.none => Option.none
    | some hh =>
      match rest with
      | [] => some (hh, 0, 0, 0)
      | ':' :: c :: d :: rest2 =>
        match digitsToNat [c, d] with
        | Option.none => Option.none
        | some mm =>
          match rest2 with
          | [] => some (hh, mm, 0, 0)
          | ':' :: e :: f :: rest3 =>
            match digitsToNat [e, f] with
            | Option.none => Option.none
            | some ss =>
              match parseFrac rest3 with
              | some us => some (hh, mm, ss, us)
              | Option.none => Option.none
          | _ => Option.none
      | _ => Option.none
  | _ => Option.none

/-- Parse the time-and-offset part after the separator character (models
`_parse_isoformat_time`); the offset is returned in microseconds east of UTC,
`Option.none` meaning a naive datetime. -/
def parseIsoTime (cs : List Char) : Option (Nat × Nat × Nat × Nat × Option Int) :=
  if cs.length < 2 then Option.none
  else
    let tzPos : Nat :=
      match cs.findIdx? (· = '-') with
      | some i => i + 1
      | Option.none =>
        match cs.findIdx? (· = '+') with
        | some j => j + 1
        | Option.none => 0
    let timestr := if tzPos = 0 then cs else cs.take (tzPos - 1)
    match parseHMS timestr with
    | Option.none => Option.none
    | some (hh, mm, ss, us) =>
      if tzPos = 0 then some (hh, mm, ss, us, Option.none)
      else
        let tzstr := cs.drop tzPos
        if tzstr.length = 5 ∨ tzstr.length = 8 ∨ tzstr.length = 15 then
          match parseHMS tzstr with
          | Option.none => Option.none
          | some (th, tm, ts, tus) =>
            if th = 0 ∧ tm = 0 ∧ ts = 0 ∧ tus = 0 then some (hh, mm, ss, us, some 0)
            else
              let sign : Int := if cs.get? (tzPos - 1) = some '-' then -1 else 1
              let mag : Int := (((th * 3600 + tm * 60 + ts) * 1000000 + tus : Nat) : Int)
              if mag < 86400000000 then some (hh, mm, ss, us, some (sign * mag))
              else Option.none
        else Option.none

/-- Gregorian leap-year rule, as in Python's `calendar`/`datetime`. -/
def isLeapYear (y : Nat) : Bool :=
  y % 4 = 0 ∧ (y % 100 ≠ 0 ∨ y % 400 = 0)

/-- Days in a month, as validated by the `datetime` constructor. -/
def daysInMonth (y m : Nat) : Nat :=
  if m = 2 then (if isLeapYear y then 29 else 28)
  else if m = 4 ∨ m = 6 ∨ m = 9 ∨ m = 11 then 30
  else 31

/-- An aware-or-naive `datetime` value; `tzOffset` is the UTC offset in
microseconds (`Option.none` for a naive datetime). -/
structure PyDatetime where
  year : Nat
  month : Nat
  day : Nat
  hour : Nat
  minute : Nat
  second : Nat
  microsecond : Nat
  tzOffset : Option Int
deriving DecidableEq

/-- The `datetime` constructor's range validation. -/
def mkDatetime (y m d hh mi ss us : Nat) (tz : Option Int) : Option PyDatetime :=
  if 1 ≤ y ∧ y ≤ 9999 ∧ 1 ≤ m ∧ m ≤ 12 ∧ 1 ≤ d ∧ d ≤ daysInMonth y m ∧
      hh ≤ 23 ∧ mi ≤ 59 ∧ ss ≤ 59 ∧ us ≤ 999999 then
    some ⟨y, m, d, hh, mi, ss, us, tz⟩
  else Option.none

/-- Model of `datetime.fromisoformat`: date from the first 10 characters, the
character at index 10 (if any) is an arbitrary separator, time parsed from
index 11 on.  Any failure (parse error, constructor range error) is
`Option.none`. -/
def fromisoformat (s : String) : Option PyDatetime :=
  let cs := s.toList
  match parseIsoDate (cs.take 10) with
  | Option.none => Option.none
  | some (y, m, d) =>
    let tcs := cs.drop 11
    if tcs.isEmpty then mkDatetime y m d 0 0 0 0 Option.none
    else
      match parseIsoTime tcs with
      | Option.none => Option.none
      | some (hh, mi, ss, us, tz) => mkDatetime y m d hh mi ss us tz

/-- Left-pad the decimal rendering of `n` with zeros to width `w`. -/
def padNum (w n : Nat) : String :=
  String.mk (List.replicate (w - (toString n).length) '0') ++ toString n

/-- Render a UTC offset as `datetime.isoformat` does (`±HH:MM`, extended with
seconds/microseconds when they are nonzero); empty for a naive datetime. -/
def formatOffset : Option Int → String
  | Option.none => ""
  | some off =>
    let sign := if off < 0 then "-" else "+"
    let a := off.natAbs
    let hh := a / 3600000000
    let r1 := a % 3600000000
    let mm := r1 / 60000000
    let r2 := r1 % 60000000
    let ss := r2 / 1000000
    let us := r2 % 1000000
    sign ++ padNum 2 hh ++ ":" ++ padNum 2 mm ++
      (if ss ≠ 0 ∨ us ≠ 0 then
        ":" ++ padNum 2 ss ++ (if us ≠ 0 then "." ++ padNum 6 us else "")
      else "")

/-- Model of `datetime.isoformat()` (default separator `T`, `timespec` auto:
microseconds printed only when nonzero). -/
def isoformat (dt : PyDatetime) : String :=
  padNum 4 dt.year ++ "-" ++ padNum 2 dt.month ++ "-" ++ padNum 2 dt.day ++ "T" ++
    padNum 2 dt.hour ++ ":" ++ padNum 2 dt.minute ++ ":" ++ padNum 2 dt.second ++
    (if dt.microsecond ≠ 0 then "." ++ padNum 6 dt.microsecond else "") ++
    formatOffset dt.tzOffset

/-- Replace every occurrence of `Z` by `+00:00` in a character list (models
the `value.replace("Z", "+00:00")` call; the pattern is a single character, so
Python's left-to-right non-overlapping scan is plain pointwise replacement). -/
def replaceZ : List Char → List Char
  | [] => []
  | c :: cs =>
    if c = 'Z' then '+' :: '0' :: '0' :: ':' :: '0' :: '0' :: replaceZ cs
    else c :: replaceZ cs

/-- String version of `replaceZ`. -/
def pyReplaceZ (s : String) : String :=
  String.mk (replaceZ s.toList)

/-- Embedding of `_try_parse_dt` (normalizer.py lines 8–17).  A falsy input
(`None`, `""`, but also any other falsy value) yields `None`.  Otherwise the
`try` block runs: on a non-`str` value, `.replace` raises `AttributeError`,
which the bare `except` turns into returning the value unchanged; on a `str`,
a successful `fromisoformat` yields the canonical `isoformat` re-rendering and
any parse failure returns the original string. -/
def try_parse_dt (v : PyVal) : PyVal :=
  if v.truthy then
    match v with
    | .str s =>
      match fromisoformat (pyReplaceZ s) with
      | some dt => .str (isoformat dt)
      | Option.none => .str s
    | _ => v
  else .none

/-!
Embedding of `normalize_events` (normalizer.py lines 54–125).  Python code
that can raise is modelled in `Option`: `Option.none` is an exception
escaping `normalize_events` (there is no `try` in the normalizer, so any
raise aborts the whole call).
-/

/-- Python `d.get(k, default)` on a string-keyed dict. -/
def pyGetD (kvs : List (String × PyVal)) (k : String) (d : PyVal) : PyVal :=
  match kvs.lookup k with
  | some v => v
  | Option.none => d

/-- Python `d.get(k)` (default `None`). -/
def pyGet (kvs : List (String × PyVal)) (k : String) : PyVal :=
  pyGetD kvs k .none

/-- Python iteration `for x in v`: lists yield their elements, strings their
characters (as 1-character strings), dicts their keys; the remaining values
are not iterable and raise `TypeError`. -/
def pyIter : PyVal → Option (List PyVal)
  | .str s => some (s.toList.map fun c => .str (String.singleton c))
  | .list xs => some xs
  | .dict kvs => some (kvs.map fun kv => .str kv.1)
  | _ => Option.none

/-- Python `v or []`, as used for the `events`/`categories`/`sources`/
`geometry` sequences. -/
def orEmptyList (v : PyVal) : PyVal :=
  if v.truthy then v else .list []

/-- The sequence iterated by a `for x in (v or [])` loop. -/
def seqOf (v : PyVal) : Option (List PyVal) :=
  pyIter (orEmptyList v)

/-- Exception-propagating map over a list: the loop body `f` is applied to
each element in order and the first raise aborts everything. -/
def mapOption (f : α → Option β) : List α → Option (List β)
  | [] => some []
  | x :: xs =>
    match f x with
    | Option.none => Option.none
    | some y =>
      match mapOption f xs with
      | Option.none => Option.none
      | some ys => some (y :: ys)

/-- `NormalizedCategory` dataclass. -/
structure NormalizedCategory where
  id : String
  title : PyVal

/-- `NormalizedSource` dataclass. -/
structure NormalizedSource where
  id : String
  url : PyVal

/-- `NormalizedGeometry` dataclass (`coordinates` is passed through opaquely,
so its field — like the other copied-through fields — keeps type `PyVal`). -/
structure NormalizedGeometry where
  date : PyVal
  type : PyVal
  coordinates : PyVal
  magnitude_value : PyVal
  magnitude_unit : PyVal

/-- `NormalizedEvent` dataclass. -/
structure NormalizedEvent where
  id : String
  title : PyVal
  description : PyVal
  link : PyVal
  status : String
  closed : PyVal
  categories : List NormalizedCategory
  sources : List NormalizedSource
  geometry : List NormalizedGeometry

/-- The wrapper dict returned by `normalize_events`. -/
structure NormalizedResponse where
  source : String
  title : PyVal
  generated_at : String
  count : Nat
  events : List NormalizedEvent

/-- Body of the `for c in (ev.get("categories") or [])` loop: `c.get` raises
`AttributeError` unless `c` is a dict. -/
def normCategory : PyVal → Option NormalizedCategory
  | .dict kvs => some ⟨pyStr (pyGetD kvs "id" (.str "")), pyGet kvs "title"⟩
  | _ => Option.none

/-- Body of the `for s in (ev.get("sources") or [])` loop. -/
def normSource : PyVal → Option NormalizedSource
  | .dict kvs => some ⟨pyStr (pyGetD kvs "id" (.str "")), pyGet kvs "url"⟩
  | _ => Option.none

/-- Body of the `for g in (ev.get("geometry") or [])` loop. -/
def normGeometry : PyVal → Option NormalizedGeometry
  | .dict kvs =>
    some ⟨try_parse_dt (pyGet kvs "date"), pyGet kvs "type", pyGet kvs "coordinates",
      pyGet kvs "magnitudeValue", pyGet kvs "magnitudeUnit"⟩
  | _ => Option.none

/-- Body of the `for ev in raw_events` loop of `normalize_events`: builds one
`NormalizedEvent` (raising — `Option.none` — when `ev` is not a dict, or one
of its three sub-sequences is a truthy non-iterable or contains a non-dict). -/
def normEvent : PyVal → Option NormalizedEvent
  | .dict kvs =>
    match (seqOf (pyGet kvs "categories")).bind (mapOption normCategory) with
    | Option.none => Option.none
    | some cats =>
      match (seqOf (pyGet kvs "sources")).bind (mapOption normSource) with
      | Option.none => Option.none
      | some srcs =>
        match (seqOf (pyGet kvs "geometry")).bind (mapOption normGeometry) with
        | Option.none => Option.none
        | some geoms =>
          some
            { id := pyStr (pyGetD kvs "id" (.str "")),
              title := pyGet kvs "title",
              description := pyGet kvs "description",
              link := pyGet kvs "link",
              status := if (try_parse_dt (pyGet kvs "closed")).truthy then "closed" else "open",
              closed := try_parse_dt (pyGet kvs "closed"),
              categories := cats,
              sources := srcs,
              geometry := geoms }
  | _ => Option.none

/-- The `raw_events = eonet_payload.get("events", []) or []` extraction,
followed by the iteration at the head of the main loop. -/
def extractRawEvents : PyVal → Option (List PyVal)
  | .dict kvs => seqOf (pyGetD kvs "events" (.list []))
  | _ => Option.none

/-- Embedding of `normalize_events`.  The generation timestamp
(`datetime.utcnow().isoformat()`) is passed in explicitly as `nowIso` to keep
the function pure; the code appends the literal `"Z"` to it.  A non-dict
payload raises (`.get` on a non-mapping is an `AttributeError`). -/
def normalize_events (nowIso : String) (payload : PyVal) : Option NormalizedResponse :=
  match payload with
  | .dict kvs =>
    match seqOf (pyGetD kvs "events" (.list [])) with
    | Option.none => Option.none
    | some raws =>
      match mapOption normEvent raws with
      | Option.none => Option.none
      | some evs =>
        some
          { source := "NASA_EONET_V3",
            title := pyGet kvs "title",
            generated_at := nowIso ++ "Z",
            count := evs.length,
            events := evs }
  | _ => Option.none

/-!
Embedding of `EONETClient._get` (client.py lines 41–68).  Each loop iteration
performs one HTTP attempt; attempt `n` (1-based, as in the Python
`range(1, retries + 1)`) is described by `outcomes n`.  The embedding records
the returned-or-raised result, the list of `time.sleep` durations in order,
and the number of attempts performed.
-/

/-- What one `session.get` attempt produces: a network-level timeout, a
connection failure, or an HTTP response with a status code and a body that
either parses as JSON (`some v`) or does not (`Option.none`). -/
inductive Outcome where
  | timeout
  | connError
  | response (status : Nat) (body : Option PyVal)

/-- The lower-level `requests` exceptions the `except` clause can catch and
wrap. -/
inductive LowErr where
  | timeout
  | connError
  | httpError (status : Nat)
deriving DecidableEq

/-- Which of the `EONETClientError` raises produced the error. -/
inductive ClientErrKind where
  | nonRetryable (status : Nat)
  | exhausted
  | unexpected
deriving DecidableEq

/-- How `_get` terminates: a parsed JSON body is returned; an
`EONETClientError` is raised (with its `from` cause); or an exception that is
NOT an `EONETClientError` escapes — the only such case in `_get` is the JSON
decoding error raised by `resp.json()` on a body that is not valid JSON,
which is none of `Timeout`/`ConnectionError`/`HTTPError` and so is not
caught. -/
inductive GetResult where
  | ok (v : PyVal)
  | clientError (kind : ClientErrKind) (cause : Option LowErr)
  | escaped

/-- Observable behaviour of one `_get` call: its result, the backoff sleeps
performed (in order), and the number of attempts made. -/
structure RunOut where
  result : GetResult
  sleeps : List ℚ
  attempts : Nat

/-- The retry decision at the tail of the `except` clause, for a retryable
failure `e` caught at attempt `attempt`: sleep `backoff * attempt` and
continue (`next` is the remainder of the loop) when attempts remain,
otherwise raise `EONETClientError` wrapping `e`. -/
def withRetry (retries : Nat) (backoff : ℚ) (attempt : Nat) (e : LowErr) (next : RunOut) : RunOut :=
  if attempt < retries then
    ⟨next.result, backoff * (attempt : ℚ) :: next.sleeps, next.attempts + 1⟩
  else
    ⟨.clientError .exhausted (some e), [], 1⟩

/-- The retry loop of `_get`, from attempt `attempt` on, with `fuel`
iterations left (`fuel = retries - attempt + 1` at every call) and `lastErr`
the current value of the Python `last_err` variable.  Branch order follows the
source: 5xx raises `HTTPError` before `raise_for_status` (which raises
`HTTPError` for any 400–599 status); a parseable body on a passing status
returns; the `except` clause re-raises 4xx-except-429 as `EONETClientError`
immediately and otherwise retries. -/
def getGo (retries : Nat) (backoff : ℚ) (outcomes : Nat → Outcome) :
    Nat → Nat → Option LowErr → RunOut
  | 0, _, lastErr => ⟨.clientError .unexpected lastErr, [], 0⟩
  | fuel + 1, attempt, _ =>
    match outcomes attempt with
    | .timeout =>
      withRetry retries backoff attempt .timeout
        (getGo retries backoff outcomes fuel (attempt + 1) (some .timeout))
    | .connError =>
      withRetry retries backoff attempt .connError
        (getGo retries backoff outcomes fuel (attempt + 1) (some .connError))
    | .response s body =>
      if 500 ≤ s ∧ s < 600 then
        withRetry retries backoff attempt (.httpError s)
          (getGo retries backoff outcomes fuel (attempt + 1) (some (.httpError s)))
      else if 400 ≤ s ∧ s < 600 then
        if s ≠ 429 then ⟨.clientError (.nonRetryable s) (some (.httpError s)), [], 1⟩
        else
          withRetry retries backoff attempt (.httpError s)
            (getGo retries backoff outcomes fuel (attempt + 1) (some (.httpError s)))
      else
        match body with
        | some v => ⟨.ok v, [], 1⟩
        | Option.none => ⟨.escaped, [], 1⟩

/-- Embedding of `EONETClient._get`: run the loop from attempt 1 with
`retries` iterations available and `last_err = None`. -/
def EONETClient_get (retries : Nat) (backoff : ℚ) (outcomes : Nat → Outcome) : RunOut :=
  getGo retries backoff outcomes retries 1 Option.none

/-!
Helper lemmas about the normalizer embedding.
-/

/-- Success condition of a `for x in (v or [])` loop whose body succeeds
exactly on elements satisfying `ok`: a falsy `v` iterates nothing, a truthy
`v` must be a list all of whose elements satisfy `ok` (iterating a truthy
string or dict yields strings, on which the loop bodies of the normalizer
always raise). -/
def seqAllOk (ok : PyVal → Bool) (v : PyVal) : Bool :=
  if v.truthy then
    match v with
    | .list xs => xs.all ok
    | _ => false
  else true

/-- Success condition of the per-event loop body: the event must be a dict
and each of its three sub-sequences must be absent, falsy, or a list of
dicts. -/
def eventOk : PyVal → Bool
  | .dict kvs =>
    seqAllOk PyVal.isDict (pyGet kvs "categories") &&
      seqAllOk PyVal.isDict (pyGet kvs "sources") &&
      seqAllOk PyVal.isDict (pyGet kvs "geometry")
  | _ => false

/-- Success condition of `normalize_events` as a whole. -/
def payloadOk : PyVal → Bool
  | .dict kvs => seqAllOk eventOk (pyGetD kvs "events" (.list []))
  | _ => false

/-- Concrete normalized event used by the C7 witness. -/
def c7ev : NormalizedEvent :=
  ⟨"e1", .none, .none, .none, "closed", .str "2024-01-01T00:00:00+00:00", [], [], []⟩

/-- Concrete payload used by the C7 witness. -/
def c7pl : PyVal :=
  .dict [("events", .list [.dict [("id", .str "e1"), ("closed", .str "2024-01-01T00:00:00Z")]])]

/-- Concrete normalized response used by the C7 witness. -/
def c7res : NormalizedResponse :=
  ⟨"NASA_EONET_V3", .none, "tZ", 1, [c7ev]⟩

/-- Concrete payload with two events used by the C8 witness. -/
def c8pl : PyVal :=
  .dict [("events", .list [.dict [("id", .str "a")], .dict [("id", .str "b")]])]

/-- Concrete normalized response used by the C8 witness. -/
def c8res : NormalizedResponse :=
  ⟨"NASA_EONET_V3", .none, "tZ", 2,
    [⟨"a", .none, .none, .none, "open", .none, [], [], []⟩,
     ⟨"b", .none, .none, .none, "open", .none, [], [], []⟩]⟩

/-- Concrete normalized event used by the C9 witness. -/
def c9ev : NormalizedEvent :=
  ⟨"None", .none, .none, .none, "open", .none, [], [], []⟩

/-- Concrete normalized event used by the C10 witness. -/
def c10ev : NormalizedEvent :=
  ⟨"", .none, .none, .none, "closed", .int 5, [], [], []⟩

/-- The two possible shapes of a `withRetry` step: it either continues with
the recursive remainder of the loop or raises the retries-exhausted
`EONETClientError` wrapping the current failure. -/
theorem withRetry_result (retries : Nat) (b : ℚ) (a : Nat) (e : LowErr) (next : RunOut) :
    (withRetry retries b a e next).result = next.result ∨
    (withRetry retries b a e next).result = .clientError .exhausted (some e) := by
  unfold withRetry
  split
  · exact Or.inl rfl
  · exact Or.inr rfl

/-- As long as every non-error-status response carries a JSON-parseable body,
the retry loop never lets a non-`EONETClientError` exception escape. -/
theorem getGo_ne_escaped (retries : Nat) (b : ℚ) (outs : Nat → Outcome)
    (h : ∀ n s, outs n = .response s Option.none → 400 ≤ s ∧ s < 600) :
    ∀ (fuel a : Nat) (le : Option LowErr),
      (getGo retries b outs fuel a le).result ≠ GetResult.escaped := by
  intro fuel
  induction fuel with
  | zero =>
    intro a le hres
    simp only [getGo] at hres
    exact GetResult.noConfusion hres
  | succ n ih =>
    intro a le
    simp only [getGo]
    cases houts : outs a with
    | timeout =>
      rcases withRetry_result retries b a .timeout
        (getGo retries b outs n (a + 1) (some .timeout)) with hw | hw
      · rw [hw]; exact ih (a + 1) _
      · rw [hw]; intro hres; exact GetResult.noConfusion hres
    | connError =>
      rcases withRetry_result retries b a .connError
        (getGo retries b outs n (a + 1) (some .connError)) with hw | hw
      · rw [hw]; exact ih (a + 1) _
      · rw [hw]; intro hres; exact GetResult.noConfusion hres
    | response s body =>
      dsimp only
      by_cases h5 : 500 ≤ s ∧ s < 600
      · rw [if_pos h5]
        rcases withRetry_result retries b a (.httpError s)
          (getGo retries b outs n (a + 1) (some (.httpError s))) with hw | hw
        · rw [hw]; exact ih (a + 1) _
        · rw [hw]; intro hres; exact GetResult.noConfusion hres
      · rw [if_neg h5]
        by_cases h4 : 400 ≤ s ∧ s < 600
        · rw [if_pos h4]
          by_cases h429 : s ≠ 429
          · rw [if_pos h429]; intro hres; exact GetResult.noConfusion hres
          · rw [if_neg h429]
            rcases withRetry_result retries b a (.httpError s)
              (getGo retries b outs n (a + 1) (some (.httpError s))) with hw | hw
            · rw [hw]; exact ih (a + 1) _
            · rw [hw]; intro hres; exact GetResult.noConfusion hres
        · rw [if_neg h4]
          cases body with
          | some v => intro hres; exact GetResult.noConfusion hres
          | none => exact absurd (h a s houts) h4

/-- C1 (counterexample): the claim that only `EONETClientError` can propagate
out of `_get` is false.  With `retries = 1` and a single attempt answering
HTTP 200 with a body that is not valid JSON, `resp.json()` raises a JSON
decoding error which is none of `Timeout`/`ConnectionError`/`HTTPError`, so
the `except` clause does not catch it and it escapes the client boundary
unwrapped (`GetResult.escaped`). -/
theorem C1_cex_json_decode_escapes :
    (EONETClient_get 1 0 (fun _ => .response 200 Option.none)).result = .escaped := by
  rfl

/-- C1 (amended): the unified error `EONETClientError` is the only error that
can propagate out of `_get` for network-level failures and HTTP status
errors; the sole other escape is a JSON-decoding failure on a response whose
status passed `raise_for_status`.  Formally: if every response outcome with an
unparseable body has a status in 400–599 (i.e. every success-status response
is JSON-parseable), then no non-`EONETClientError` exception escapes. -/
theorem C1_amended_only_client_error (r : Nat) (b : ℚ) (outs : Nat → Outcome)
    (h : ∀ n s, outs n = .response s Option.none → 400 ≤ s ∧ s < 600) :
    (EONETClient_get r b outs).result ≠ GetResult.escaped :=
  getGo_ne_escaped r b outs h r 1 Option.none

/-- C1 (witness): the amended theorem applied to a run whose attempts all
answer HTTP 200 with a parseable body. -/
theorem C1_witness :
    (EONETClient_get 2 1 (fun _ => .response 200 (some (.int 1)))).result ≠ GetResult.escaped :=
  C1_amended_only_client_error 2 1 _ (fun n s hn => by simp at hn)

/-- C3: with `retries = 3`, two attempts answering HTTP 500 followed by a
success with a JSON-parseable body `v`, `_get` returns `v` after exactly 3
attempts with exactly 2 backoff sleeps of durations `backoff * 1` and
`backoff * 2`, in that order. -/
theorem C3_retry_then_success (b : ℚ) (v : PyVal) :
    EONETClient_get 3 b
      (fun n => if n ≤ 2 then .response 500 Option.none else .response 200 (some v)) =
      ⟨.ok v, [b * 1, b * 2], 3⟩ := by
  norm_num [EONETClient_get, getGo, withRetry]

/-- C4: a response with status 400–499 other than 429 on the first attempt
makes `_get` raise `EONETClientError` immediately — exactly 1 attempt, no
sleep — whatever the remaining retry budget; and status 429 is instead
retried (with `retries = 2`, a 429 then a success yields the success after
one backoff sleep). -/
theorem C4_non_retryable_4xx :
    (∀ (s : Nat) (body : Option PyVal) (r : Nat) (b : ℚ) (outs : Nat → Outcome),
      400 ≤ s → s < 500 → s ≠ 429 → 1 ≤ r → outs 1 = .response s body →
      EONETClient_get r b outs =
        ⟨.clientError (.nonRetryable s) (some (.httpError s)), [], 1⟩) ∧
    (∀ (b : ℚ) (v : PyVal),
      EONETClient_get 2 b
        (fun n => if n = 1 then .response 429 Option.none else .response 200 (some v)) =
        ⟨.ok v, [b * 1], 2⟩) := by
  constructor
  · intro s body r b outs h4 h5 h429 hr h1
    obtain ⟨r', rfl⟩ : ∃ r', r = r' + 1 := ⟨r - 1, by omega⟩
    simp only [EONETClient_get, getGo, h1]
    rw [if_neg (by omega), if_pos (by omega), if_pos h429]
  · intro b v
    norm_num [EONETClient_get, getGo, withRetry]

/-- C4 (witness): the non-retryable half of C4 applied to a simulated 404 with
`retries = 3`. -/
theorem C4_witness :
    EONETClient_get 3 1 (fun _ => .response 404 Option.none) =
      ⟨.clientError (.nonRetryable 404) (some (.httpError 404)), [], 1⟩ :=
  C4_non_retryable_4xx.1 404 Option.none 3 1 _ (by norm_num) (by norm_num) (by decide)
    (by norm_num) rfl

/-- C5: with `retries = 2` and every attempt answering HTTP 503, `_get`
raises `EONETClientError` wrapping the last failure after exactly 2 attempts,
with exactly 1 backoff sleep (none after the final attempt). -/
theorem C5_retry_exhaustion (b : ℚ) :
    EONETClient_get 2 b (fun _ => .response 503 Option.none) =
      ⟨.clientError .exhausted (some (.httpError 503)), [b * 1], 2⟩ := by
  norm_num [EONETClient_get, getGo, withRetry]

/-- A zero-padded field has at least its requested width. -/
theorem padNum_length (w n : Nat) : w ≤ (padNum w n).length := by
  have h : (padNum w n).length = (w - (toString n).length) + (toString n).length :=
    by simp [padNum, String.length_append]
  omega

/-- An `isoformat` rendering is never the empty string. -/
theorem isoformat_length_pos (dt : PyDatetime) : 0 < (isoformat dt).length := by
  have h4 := padNum_length 4 dt.year
  simp only [isoformat, String.length_append]
  omega

/-- The result of `_try_parse_dt` is either `None` or truthy: a successful
parse renders to a non-empty string, a failed parse returns the (truthy)
original, and non-strings are returned as they are, truthy. -/
theorem try_parse_dt_none_or_truthy (v : PyVal) :
    try_parse_dt v = PyVal.none ∨ (try_parse_dt v).truthy = true := by
  by_cases ht : v.truthy
  · right
    unfold try_parse_dt
    rw [if_pos ht]
    cases v with
    | str s =>
      dsimp only
      cases hp : fromisoformat (pyReplaceZ s) with
      | some dt =>
        have := isoformat_length_pos dt
        simp [PyVal.truthy]
        omega
      | none => exact ht
    | none => exact ht
    | bool b => exact ht
    | int n => exact ht
    | float q => exact ht
    | list xs => exact ht
    | dict kvs => exact ht
  · left
    unfold try_parse_dt
    rw [if_neg ht]

/-- A truthy non-string value is passed through `_try_parse_dt` unchanged
(the `.replace` call raises `AttributeError`, which the bare `except`
converts into returning the original value). -/
theorem try_parse_dt_nonstr (v : PyVal) (ht : v.truthy = true) (hs : v.isStr = false) :
    try_parse_dt v = v := by
  unfold try_parse_dt
  rw [if_pos ht]
  cases v with
  | str s => simp [PyVal.isStr] at hs
  | none => rfl
  | bool b => rfl
  | int n => rfl
  | float q => rfl
  | list xs => rfl
  | dict kvs => rfl

/-- `mapOption` succeeds exactly when the body succeeds on every element. -/
theorem mapOption_isSome (f : α → Option β) :
    ∀ xs : List α, (mapOption f xs).isSome = xs.all fun x => (f x).isSome := by
  intro xs
  induction xs with
  | nil => rfl
  | cons x xs ih =>
    simp only [mapOption, List.all_cons]
    cases hfx : f x with
    | none => simp
    | some y =>
      cases hrest : mapOption f xs with
      | none => rw [hrest] at ih; simp [← ih]
      | some ys => rw [hrest] at ih; simp [← ih]

/-- Every element of a successful `mapOption` run comes from an input
element. -/
theorem mapOption_mem (f : α → Option β) :
    ∀ (xs : List α) (ys : List β), mapOption f xs = some ys →
      ∀ y ∈ ys, ∃ x ∈ xs, f x = some y := by
  intro xs
  induction xs with
  | nil =>
    intro ys h y hy
    simp only [mapOption] at h
    injection h with h
    subst h
    simp at hy
  | cons x xs ih =>
    intro ys h y hy
    simp only [mapOption] at h
    cases hfx : f x with
    | none => rw [hfx] at h; exact absurd h (by simp)
    | some y0 =>
      rw [hfx] at h
      cases hrest : mapOption f xs with
      | none => rw [hrest] at h; exact absurd h (by simp)
      | some ys0 =>
        rw [hrest] at h
        injection h with h
        subst h
        rcases List.mem_cons.mp hy with rfl | hmem
        · exact ⟨x, List.mem_cons_self x xs, hfx⟩
        · obtain ⟨x', hx', hfx'⟩ := ih ys0 hrest y hmem
          exact ⟨x', List.mem_cons_of_mem x hx', hfx'⟩

/-- A successful `mapOption` run preserves length. -/
theorem mapOption_length (f : α → Option β) :
    ∀ (xs : List α) (ys : List β), mapOption f xs = some ys → ys.length = xs.length := by
  intro xs
  induction xs with
  | nil =>
    intro ys h
    simp only [mapOption] at h
    injection h with h
    subst h
    rfl
  | cons x xs ih =>
    intro ys h
    simp only [mapOption] at h
    cases hfx : f x with
    | none => rw [hfx] at h; exact absurd h (by simp)
    | some y0 =>
      rw [hfx] at h
      cases hrest : mapOption f xs with
      | none => rw [hrest] at h; exact absurd h (by simp)
      | some ys0 =>
        rw [hrest] at h
        injection h with h
        subst h
        simp [ih ys0 hrest]

/-- `normCategory` succeeds exactly on dicts. -/
theorem normCategory_isSome (v : PyVal) : (normCategory v).isSome = v.isDict := by
  cases v <;> rfl

/-- `normSource` succeeds exactly on dicts. -/
theorem normSource_isSome (v : PyVal) : (normSource v).isSome = v.isDict := by
  cases v <;> rfl

/-- `normGeometry` succeeds exactly on dicts. -/
theorem normGeometry_isSome (v : PyVal) : (normGeometry v).isSome = v.isDict := by
  cases v <;> rfl

/-- Characterization of when a whole `for x in (v or [])` loop with body `f`
succeeds. -/
theorem seqBind_isSome (f : PyVal → Option β) (ok : PyVal → Bool)
    (hf : ∀ v, (f v).isSome = ok v) (hs : ∀ s, ok (.str s) = false) (v : PyVal) :
    ((seqOf v).bind (mapOption f)).isSome = seqAllOk ok v := by
  unfold seqOf seqAllOk orEmptyList
  by_cases ht : v.truthy
  · rw [if_pos ht, if_pos ht]
    cases v with
    | list xs =>
      simp [pyIter, mapOption_isSome, hf]
    | str s =>
      have hne : s.data ≠ [] := by
        simp only [PyVal.truthy, decide_eq_true_eq] at ht
        intro hnil
        exact ht (by simp [String.length, hnil])
      cases hcs : s.toList with
      | nil => exact absurd hcs hne
      | cons c cs =>
        simp [pyIter, hcs, mapOption_isSome, hf, hs]
        exact ⟨c, by simp [show s.data = c :: cs from hcs]⟩
    | dict kvs =>
      cases kvs with
      | nil => simp [PyVal.truthy] at ht
      | cons kv kvs' => simp [pyIter, mapOption_isSome, hf, hs]
    | none => simp [PyVal.truthy] at ht
    | bool b => simp [pyIter]
    | int n => simp [pyIter]
    | float q => simp [pyIter]
  · rw [if_neg ht, if_neg ht]
    simp [pyIter, mapOption]

/-- `normEvent` succeeds exactly on `eventOk` inputs. -/
theorem normEvent_isSome (v : PyVal) : (normEvent v).isSome = eventOk v := by
  cases v with
  | dict kvs =>
    have h1 := seqBind_isSome normCategory PyVal.isDict normCategory_isSome
      (fun s => rfl) (pyGet kvs "categories")
    have h2 := seqBind_isSome normSource PyVal.isDict normSource_isSome
      (fun s => rfl) (pyGet kvs "sources")
    have h3 := seqBind_isSome normGeometry PyVal.isDict normGeometry_isSome
      (fun s => rfl) (pyGet kvs "geometry")
    simp only [normEvent, eventOk]
    rw [← h1, ← h2, ← h3]
    cases (seqOf (pyGet kvs "categories")).bind (mapOption normCategory) with
    | none => rfl
    | some cats =>
      cases (seqOf (pyGet kvs "sources")).bind (mapOption normSource) with
      | none => rfl
      | some srcs =>
        cases (seqOf (pyGet kvs "geometry")).bind (mapOption normGeometry) with
        | none => rfl
        | some geoms => rfl
  | none => rfl
  | bool b => rfl
  | int n => rfl
  | float q => rfl
  | str s => rfl
  | list xs => rfl

/-- A successful `normEvent` input is a dict. -/
theorem normEvent_some_dict (raw : PyVal) (e : NormalizedEvent) (h : normEvent raw = some e) :
    ∃ kvs, raw = PyVal.dict kvs := by
  cases raw with
  | dict kvs => exact ⟨kvs, rfl⟩
  | none => exact absurd h (by simp [normEvent])
  | bool b => exact absurd h (by simp [normEvent])
  | int n => exact absurd h (by simp [normEvent])
  | float q => exact absurd h (by simp [normEvent])
  | str s => exact absurd h (by simp [normEvent])
  | list xs => exact absurd h (by simp [normEvent])

/-- Field values of a successfully normalized event, read off the `normEvent`
loop body. -/
theorem normEvent_eq_some (kvs : List (String × PyVal)) (e : NormalizedEvent)
    (h : normEvent (.dict kvs) = some e) :
    e.status = (if (try_parse_dt (pyGet kvs "closed")).truthy then "closed" else "open") ∧
    e.closed = try_parse_dt (pyGet kvs "closed") ∧
    e.id = pyStr (pyGetD kvs "id" (.str "")) := by
  simp only [normEvent] at h
  cases h1 : (seqOf (pyGet kvs "categories")).bind (mapOption normCategory) with
  | none => rw [h1] at h; exact absurd h (by simp)
  | some cats =>
    rw [h1] at h
    cases h2 : (seqOf (pyGet kvs "sources")).bind (mapOption normSource) with
    | none => rw [h2] at h; exact absurd h (by simp)
    | some srcs =>
      rw [h2] at h
      cases h3 : (seqOf (pyGet kvs "geometry")).bind (mapOption normGeometry) with
      | none => rw [h3] at h; exact absurd h (by simp)
      | some geoms =>
        rw [h3] at h
        injection h with h
        subst h
        exact ⟨rfl, rfl, rfl⟩

/-- C2 (counterexample): the claim that `normalize_events` succeeds on every
input whose top level is a mapping is false.  On the mapping
`{"events": 5}` the value bound to `"events"` is truthy, so `5 or []` keeps
it, and `for ev in 5` raises `TypeError`: normalization fails even though the
top-level input is a mapping. -/
theorem C2_cex_malformed_events :
    normalize_events "t" (.dict [("events", .int 5)]) = Option.none ∧
    (PyVal.dict [("events", .int 5)]).isDict = true :=
  ⟨rfl, rfl⟩

/-- C2 (amended): `normalize_events` succeeds exactly when the top-level
input is a mapping whose `events` value (missing key treated as absent,
falsy values as the empty sequence) is a list of mappings, each of whose
`categories`/`sources`/`geometry` values is likewise absent, falsy, or a
list of mappings.  In particular it never fails on *missing* fields, but it
can fail on malformed ones (a truthy non-list sequence value, or a non-dict
element) even when the top level is a mapping. -/
theorem C2_amended_success_iff (nowIso : String) (p : PyVal) :
    (normalize_events nowIso p).isSome = payloadOk p := by
  cases p with
  | dict kvs =>
    have h := seqBind_isSome normEvent eventOk normEvent_isSome
      (fun s => rfl) (pyGetD kvs "events" (.list []))
    simp only [normalize_events, payloadOk]
    rw [← h]
    cases seqOf (pyGetD kvs "events" (.list [])) with
    | none => rfl
    | some raws =>
      dsimp only
      rw [Option.some_bind]
      cases mapOption normEvent raws with
      | none => rfl
      | some evs => rfl
  | none => rfl
  | bool b => rfl
  | int n => rfl
  | float q => rfl
  | str s => rfl
  | list xs => rfl

/-- C6: the timestamp rule of `_try_parse_dt`.  A falsy input (absent —
`None` — or the empty string) yields `None`; a non-empty string that parses
as ISO-8601 after the trailing-`Z`-to-`+00:00` replacement yields the
canonical `isoformat` re-rendering (`"2024-01-01T00:00:00Z"` becomes
`"2024-01-01T00:00:00+00:00"`); a non-empty string that fails to parse
(`"not-a-date"`) is returned unchanged rather than raising. -/
theorem C6_timestamp_rule :
    (∀ v : PyVal, v.truthy = false → try_parse_dt v = PyVal.none) ∧
    (∀ (s : String) (dt : PyDatetime), s.length ≠ 0 →
      fromisoformat (pyReplaceZ s) = some dt → try_parse_dt (.str s) = .str (isoformat dt)) ∧
    (∀ s : String, s.length ≠ 0 →
      fromisoformat (pyReplaceZ s) = Option.none → try_parse_dt (.str s) = .str s) ∧
    try_parse_dt (.str "2024-01-01T00:00:00Z") = .str "2024-01-01T00:00:00+00:00" ∧
    try_parse_dt (.str "") = PyVal.none ∧
    try_parse_dt (.str "not-a-date") = .str "not-a-date" := by
  refine ⟨?_, ?_, ?_, rfl, rfl, rfl⟩
  · intro v hv
    simp [try_parse_dt, hv]
  · intro s dt hlen hp
    simp [try_parse_dt, PyVal.truthy, hlen, hp]
  · intro s hlen hp
    simp [try_parse_dt, PyVal.truthy, hlen, hp]

/-- C6 (witness): the general rule instantiated at `None` (absent input) and
at the spec's example timestamp, whose parse result is the UTC-aware
datetime 2024-01-01 00:00:00+00:00. -/
theorem C6_witness :
    (PyVal.none.truthy = false ∧ try_parse_dt PyVal.none = PyVal.none) ∧
    (("2024-01-01T00:00:00Z" : String).length ≠ 0 ∧
      fromisoformat (pyReplaceZ "2024-01-01T00:00:00Z") = some ⟨2024, 1, 1, 0, 0, 0, 0, some 0⟩ ∧
      try_parse_dt (.str "2024-01-01T00:00:00Z") =
        .str (isoformat ⟨2024, 1, 1, 0, 0, 0, 0, some 0⟩)) :=
  ⟨⟨rfl, C6_timestamp_rule.1 PyVal.none rfl⟩,
    ⟨by decide, rfl, C6_timestamp_rule.2.1 "2024-01-01T00:00:00Z" ⟨2024, 1, 1, 0, 0, 0, 0, some 0⟩
      (by decide) rfl⟩⟩

/-- C7: in every successfully normalized response, an event has
`status = "closed"` exactly when its `closed` field is non-absent (the
`closed` field is computed first by `_try_parse_dt`, whose result is `None`
or truthy, and `status` is derived from its truthiness). -/
theorem C7_status_iff_closed (nowIso : String) (p : PyVal) (r : NormalizedResponse)
    (h : normalize_events nowIso p = some r) :
    ∀ e ∈ r.events, e.status = "closed" ↔ e.closed ≠ PyVal.none := by
  intro e he
  cases p with
  | dict kvs =>
    simp only [normalize_events] at h
    cases hseq : seqOf (pyGetD kvs "events" (.list [])) with
    | none => rw [hseq] at h; exact absurd h (by simp)
    | some raws =>
      rw [hseq] at h
      dsimp only at h
      cases hmap : mapOption normEvent raws with
      | none => rw [hmap] at h; exact absurd h (by simp)
      | some evs =>
        rw [hmap] at h
        injection h with h
        subst h
        obtain ⟨raw, _, hev⟩ := mapOption_mem normEvent raws evs hmap e he
        obtain ⟨kvs2, rfl⟩ := normEvent_some_dict raw e hev
        obtain ⟨hst, hcl, _⟩ := normEvent_eq_some kvs2 e hev
        rcases try_parse_dt_none_or_truthy (pyGet kvs2 "closed") with hn | htr
        · rw [hst, hcl, hn]
          simp only [PyVal.truthy, if_false, Bool.false_eq_true]
          constructor
          · intro h'; exact absurd h' (by decide)
          · intro h'; exact absurd rfl h'
        · rw [hst, hcl, if_pos htr]
          constructor
          · intro _ heq
            rw [heq] at htr
            exact Bool.noConfusion htr
          · intro _; rfl
  | none => exact absurd h (by simp [normalize_events])
  | bool b => exact absurd h (by simp [normalize_events])
  | int n => exact absurd h (by simp [normalize_events])
  | float q => exact absurd h (by simp [normalize_events])
  | str s => exact absurd h (by simp [normalize_events])
  | list xs => exact absurd h (by simp [normalize_events])

/-- C7 (witness): the invariant instantiated on a payload with one closed
event. -/
theorem C7_witness :
    normalize_events "t" c7pl = some c7res ∧
    (c7ev.status = "closed" ↔ c7ev.closed ≠ PyVal.none) :=
  ⟨rfl, C7_status_iff_closed "t" c7pl c7res rfl c7ev (List.mem_singleton_self c7ev)⟩

/-- C8: whenever `normalize_events` succeeds, the `count` field equals the
length of the `events` list, and the output events are exactly the in-order
image of the raw input events under the per-event normalization (`mapOption`
preserves order and length). -/
theorem C8_count_and_order (nowIso : String) (p : PyVal) (r : NormalizedResponse)
    (h : normalize_events nowIso p = some r) :
    r.count = r.events.length ∧
    mapOption normEvent ((extractRawEvents p).getD []) = some r.events ∧
    r.events.length = ((extractRawEvents p).getD []).length := by
  cases p with
  | dict kvs =>
    simp only [normalize_events] at h
    cases hseq : seqOf (pyGetD kvs "events" (.list [])) with
    | none => rw [hseq] at h; exact absurd h (by simp)
    | some raws =>
      rw [hseq] at h
      dsimp only at h
      cases hmap : mapOption normEvent raws with
      | none => rw [hmap] at h; exact absurd h (by simp)
      | some evs =>
        rw [hmap] at h
        injection h with h
        subst h
        have hex : extractRawEvents (PyVal.dict kvs) = some raws := by
          simp [extractRawEvents, hseq]
        rw [hex]
        exact ⟨rfl, by simpa using hmap,
          by simpa using mapOption_length normEvent raws evs hmap⟩
  | none => exact absurd h (by simp [normalize_events])
  | bool b => exact absurd h (by simp [normalize_events])
  | int n => exact absurd h (by simp [normalize_events])
  | float q => exact absurd h (by simp [normalize_events])
  | str s => exact absurd h (by simp [normalize_events])
  | list xs => exact absurd h (by simp [normalize_events])

/-- C8 (witness): the count/order property instantiated on a two-event
payload. -/
theorem C8_witness :
    normalize_events "t" c8pl = some c8res ∧
    (c8res.count = c8res.events.length ∧
      mapOption normEvent ((extractRawEvents c8pl).getD []) = some c8res.events ∧
      c8res.events.length = ((extractRawEvents c8pl).getD []).length) :=
  ⟨rfl, C8_count_and_order "t" c8pl c8res rfl⟩

/-- C9: when a raw event's `"id"` key is present but bound to `None`,
`ev.get("id", "")` returns `None` (the default is not used) and `str(None)`
is the string `"None"`; the empty-string default is used only when the key
is entirely absent. -/
theorem C9_null_id_stringified (kvs : List (String × PyVal)) (e : NormalizedEvent)
    (h : normEvent (.dict kvs) = some e) :
    (List.lookup "id" kvs = some PyVal.none → e.id = "None") ∧
    (List.lookup "id" kvs = Option.none → e.id = "") := by
  obtain ⟨_, _, hid⟩ := normEvent_eq_some kvs e h
  constructor
  · intro hl
    rw [hid]
    simp [pyGetD, hl, pyStr, pyRepr]
  · intro hl
    rw [hid]
    simp [pyGetD, hl, pyStr]

/-- C9 (witness): an event whose `id` is bound to `None` normalizes with
`id = "None"`. -/
theorem C9_witness :
    normEvent (.dict [("id", PyVal.none)]) = some c9ev ∧ c9ev.id = "None" :=
  ⟨rfl, (C9_null_id_stringified [("id", PyVal.none)] c9ev rfl).1 rfl⟩

/-- C10: a truthy non-string `closed` value does not make `normalize_events`
fail: `_try_parse_dt` returns it unchanged (and un-stringified), and since it
is truthy the derived status is `"closed"`. -/
theorem C10_truthy_nonstring_closed (v : PyVal) (kvs : List (String × PyVal))
    (e : NormalizedEvent) (ht : v.truthy = true) (hs : v.isStr = false)
    (hl : List.lookup "closed" kvs = some v) (h : normEvent (.dict kvs) = some e) :
    e.closed = v ∧ e.status = "closed" := by
  obtain ⟨hst, hcl, _⟩ := normEvent_eq_some kvs e h
  have hv : pyGet kvs "closed" = v := by simp [pyGet, pyGetD, hl]
  constructor
  · rw [hcl, hv, try_parse_dt_nonstr v ht hs]
  · rw [hst, hv, try_parse_dt_nonstr v ht hs, if_pos ht]

/-- C10 (witness): an event with `closed` bound to the number 5 normalizes
without failing, passing 5 through and deriving status `"closed"`. -/
theorem C10_witness :
    normEvent (.dict [("closed", PyVal.int 5)]) = some c10ev ∧
    (c10ev.closed = PyVal.int 5 ∧ c10ev.status = "closed") :=
  ⟨rfl, C10_truthy_nonstring_closed (PyVal.int 5) [("closed", PyVal.int 5)] c10ev rfl rfl rfl rfl⟩
